/-
  Verification of the multi-source retrieval / answer-integration pipeline
  of the Medical-Chatbot repository.

  Shallow embedding of:
    * components/integrator.py   (Integrator)
    * components/evaluator.py    (Evaluator.check_hallucination)
    * components/parallel_searcher.py (ParallelSearcher)
    * rag_system.py              (RAGSystem._hallucination_check retry loop)
    * config.py                  (Config class attributes)

  External model calls (generation chain, hallucination grader, backend
  adapters) are parameters of the embedded functions: a call either returns
  a value or raises, and the embedding records whether the call happened.
  Python strings are modelled as Lean strings; Python `s[:n]` slices by
  code points, matching `List.take` on `String.data`.  Python dicts that
  the code iterates over are modelled as insertion-ordered association
  lists.  Float source weights are modelled as rationals (they are only
  looked up and rendered into text, never used arithmetically).
-/
import Mathlib

namespace MedicalChatbot

deriving instance DecidableEq for Except

/-- `dropWhile` never lengthens a list. -/
theorem length_dropWhile_le {α : Type} (p : α → Bool) :
    ∀ l : List α, (l.dropWhile p).length ≤ l.length
  | [] => Nat.le_refl _
  | a :: l => by
    simp only [List.dropWhile]
    split
    · exact Nat.le_trans (length_dropWhile_le p l) (Nat.le_succ _)
    · exact Nat.le_refl _

/-- `tail` never lengthens a list. -/
theorem length_tail_le {α : Type} (l : List α) : l.tail.length ≤ l.length := by
  cases l <;> simp

/-- One retrieved document (langchain `Document`): `page_content` plus a
free-form metadata map, modelled as an association list. -/
structure Document where
  page_content : String
  metadata : List (String × String)
deriving DecidableEq, Repr

/-- First-match lookup in an insertion-ordered association list
(embeds Python `dict[key]` / `dict.get(key)` on string keys). -/
def alookup {α : Type} : List (String × α) → String → Option α
  | [], _ => none
  | (k, v) :: rest, key => if k = key then some v else alookup rest key

/-- `doc.metadata.get(key, default)`. -/
def meta_get (d : Document) (key default : String) : String :=
  (alookup d.metadata key).getD default

/-- Python slice `s[:n]`: the first `n` code points of `s`. -/
def pyTake (n : Nat) (s : String) : String := ⟨s.data.take n⟩

/-- Length of a string in code points (Python `len`). -/
def strLen (s : String) : Nat := s.data.length

/-- Python `c in s` membership test for a single character. -/
def strContainsChar (s : String) (c : Char) : Bool := s.data.contains c

/-- Per-source result map (`Dict[str, List[Document]]`), insertion-ordered. -/
abbrev SourceResultMap : Type := List (String × List Document)

/-- Source-weight table (`self.source_weights`), values are the float
weights modelled as rationals. -/
abbrev Weights : Type := List (String × ℚ)

/-- Rendering of a weight into prompt text (stands for Python float
formatting inside an f-string; the claims never constrain the digits). -/
def rat_repr (q : ℚ) : String := toString q

namespace Integrator

/-- `integrator.py` line 45: the fixed no-information response returned
when the source map is falsy. -/
def no_info_response : String := "관련 정보를 찾을 수 없어 답변을 생성할 수 없습니다."

/-- `integrator.py` lines 101-108: user-friendly display name per source
type, defaulting to `source_type.upper()`. -/
def source_display_name (source_type : String) : String :=
  if source_type = "local" then "로컬 문서"
  else if source_type = "s3" then "S3 저장소"
  else if source_type = "medgemma" then "의료 AI"
  else if source_type = "pubmed" then "PubMed 논문"
  else if source_type = "tavily" then "웹 검색"
  else if source_type = "bedrock_kb" then "지식 베이스"
  else source_type.toUpper

/-- `integrator.py` line 98: `self.source_weights.get(source_type, 0.5)`. -/
def weight_get (w : Weights) (source_type : String) : ℚ :=
  (alookup w source_type).getD (1/2)

/-- `integrator.py` line 110: the section header
`f"\n=== {source_display_name} (신뢰도: {weight}) ==="`. -/
def section_header (w : Weights) (source_type : String) : String :=
  "\n=== " ++ source_display_name source_type ++ " (신뢰도: "
    ++ rat_repr (weight_get w source_type) ++ ") ==="

/-- `integrator.py` lines 113-115: one item line
`f"{i+1}. [{source}] {content}"` with the content sliced to 300 chars. -/
def item_line (i : Nat) (d : Document) : String :=
  toString (i + 1) ++ ". [" ++ meta_get d "source" "unknown" ++ "] "
    ++ pyTake 300 d.page_content

/-- `_build_weighted_content` lines 92-116: the `content_parts` list built
by the two nested `for` loops (appending, skipping empty sources). -/
def build_weighted_content_parts (w : Weights) (m : SourceResultMap) : List String :=
  m.foldl
    (fun acc p =>
      if p.2.isEmpty then acc
      else
        p.2.enum.foldl (fun acc2 q => acc2 ++ [item_line q.1 q.2])
          (acc ++ [section_header w p.1]))
    []

/-- `_build_weighted_content` line 117: `"\n".join(content_parts)`. -/
def build_weighted_content (w : Weights) (m : SourceResultMap) : String :=
  String.intercalate "\n" (build_weighted_content_parts w m)

/-- `_enhance_citations` line 74: the source-type tags accepted by the
citation regex `\[((?:PubMed|Web|Bedrock_KB|RAG|S3|MedGemma)[^]]*)\]`. -/
def citation_tags : List String :=
  ["PubMed", "Web", "Bedrock_KB", "RAG", "S3", "MedGemma"]

/-- Whether the characters after an opening bracket start with one of the
citation tags (the regex alternation). -/
def startsWithTag (cs : List Char) : Bool :=
  citation_tags.any (fun t => t.data.isPrefixOf cs)

/-- A citation marker matches at `'[' :: rest` iff some tag starts `rest`
and a closing `']'` occurs later (the tags contain no `']'`, so
`[^]]*` always reaches that first `']'`). -/
def marker_at (rest : List Char) : Bool :=
  startsWithTag rest && rest.contains ']'

/-- Left-to-right scan of `re.sub(citation_pattern, citation_replacer, answer)`:
each match `[TAG…]` is replaced by `【TAG…】`, scanning resumes after the
matched `']'`; on no match the character is kept and the scan moves on.
Structural recursion on a fuel argument (any fuel at least the input
length gives the scan's value; see `enhanceScanFuel_irrel`). -/
def enhanceScanFuel : Nat → List Char → List Char
  | _, [] => []
  | 0, l => l
  | fuel + 1, c :: rest =>
    if c = '[' && marker_at rest then
      let inner := rest.takeWhile (fun x => x ≠ ']')
      let after := (rest.dropWhile (fun x => x ≠ ']')).tail
      '【' :: (inner ++ '】' :: enhanceScanFuel fuel after)
    else c :: enhanceScanFuel fuel rest

/-- The substitution scan at its canonical fuel. -/
def enhanceScan (l : List Char) : List Char := enhanceScanFuel l.length l

/-- Whether `re.search(citation_pattern, answer)` would find a match. -/
def hasMarker : List Char → Bool
  | [] => false
  | c :: rest => (c = '[' && marker_at rest) || hasMarker rest

/-- The regex-substitution step of `_enhance_citations` (line 82). -/
def re_sub_citations (s : String) : String := ⟨enhanceScan s.data⟩

/-- `_enhance_citations` line 86: the advisory appended when the enhanced
answer contains no `'【'`. -/
def advisory : String :=
  "\n\n(⚠️ 참고: 이 답변은 제공된 정보를 바탕으로 생성되었으나, 구체적인 출처를 표기하지 않았습니다. 정확한 의료 정보는 의료 전문가와 상담하세요.)"

/-- `_enhance_citations` lines 66-88: rewrite markers, then append the
advisory iff `'【' not in enhanced`. -/
def enhance_citations (answer : String) : String :=
  let enhanced := re_sub_citations answer
  if strContainsChar enhanced '【' then enhanced else enhanced ++ advisory

/-- `_fallback_integration` line 217: the apology returned when none of the
hard-coded candidate sources has documents. -/
def fallback_apology : String := "죄송합니다. 신뢰할 수 있는 정보를 찾을 수 없습니다."

/-- `_fallback_integration` line 205: the hard-coded candidate order. -/
def fallback_candidates : List String := ["pubmed", "medgemma", "rag"]

/-- `_fallback_integration` lines 210-215: the templated fallback answer
(triple-quoted f-string, content already sliced to 500 chars). -/
def fallback_template (wt : ℚ) (content : String) (source_type : String) : String :=
  "다음 정보를 바탕으로 답변드립니다 (신뢰도: " ++ rat_repr wt ++ "):\n\n"
    ++ content
    ++ "\n\n이 정보는 " ++ source_type ++ " 소스에서 가져온 것입니다. \n정확한 의료 정보를 위해서는 의료 전문가와 상담하시기 바랍니다."

/-- The `for source_type in ["pubmed", "medgemma", "rag"]` loop of
`_fallback_integration`: a candidate is used iff it is a key of the map
with a non-empty list; `self.source_weights[source_type]` is a plain
index, so a missing weight key raises `KeyError` (`Except.error`). -/
def fallback_go (w : Weights) (m : SourceResultMap) : List String → Except Unit String
  | [] => Except.ok fallback_apology
  | st :: rest =>
    match alookup m st with
    | some (d :: _) =>
      match alookup w st with
      | some wt => Except.ok (fallback_template wt (pyTake 500 d.page_content) st)
      | none => Except.error ()
    | _ => fallback_go w m rest

/-- `_fallback_integration` lines 200-217. -/
def fallback_integration (w : Weights) (m : SourceResultMap) : Except Unit String :=
  fallback_go w m fallback_candidates

/-- Outcome of one `integrate_answers` call: the produced answer (or the
exception that escaped) and whether the generation chain was invoked. -/
structure IntegrateResult where
  result : Except Unit String
  model_invoked : Bool
deriving DecidableEq, Repr

/-- `integrate_answers` lines 40-64.  `gen` is the integration chain
(`self.integration_chain.invoke` on the question and weighted content);
it returns the raw answer or raises.  The short-circuit is
`if not source_categorized_docs` — an *empty dict*, so a non-empty map
whose lists are all empty still invokes the model. -/
def integrate_answers (w : Weights) (gen : String → String → Except Unit String)
    (question : String) (m : SourceResultMap) : IntegrateResult :=
  if m.isEmpty then ⟨Except.ok no_info_response, false⟩
  else
    match gen question (build_weighted_content w m) with
    | Except.ok a => ⟨Except.ok (enhance_citations a), true⟩
    | Except.error _ => ⟨fallback_integration w m, true⟩

end Integrator

namespace Evaluator

/-- Outcome of one hallucination-grader invocation: a structured
`binary_score`, or an exception raised during the model call. -/
inductive ClassifierOutcome where
  | score (binary_score : String)
  | raise
deriving DecidableEq, Repr

/-- `evaluator.py` `check_hallucination` lines 70-102.  `classify` is the
hallucination-grader chain invoked on the (formatted) documents, the
generation and the question; the formatting of the prompt does not affect
control flow and is absorbed into the oracle.  The returned `Bool` records
whether the grader was invoked.  With no documents the check is skipped
and `"relevant"` is returned; a `"yes"` score (case-insensitive) yields
`"relevant"`, any other score yields `"hallucination"`, and an exception
during the model call yields `"hallucination"` (fail-unsafe). -/
def check_hallucination
    (classify : List Document → String → String → ClassifierOutcome)
    (documents : List Document) (generation question : String) : String × Bool :=
  if documents.isEmpty then ("relevant", false)
  else
    match classify documents generation question with
    | ClassifierOutcome.score s =>
      if s.toLower = "yes" then ("relevant", true) else ("hallucination", true)
    | ClassifierOutcome.raise => ("hallucination", true)

end Evaluator

namespace ParallelSearcher

/-- Fate of one search task submitted for a source, abstracting wall-clock
time: the adapter returns a (possibly empty) document list before the
collection deadline, raises before the deadline, fails at
`executor.submit`, or fails to complete within the deadline. -/
inductive TaskOutcome where
  | ok (docs : List Document)
  | raise
  | submit_error
  | hang
deriving DecidableEq, Repr

/-- The value recorded in the `results` dict for one task:
`result if result else []` on success, `[]` when the submit or the call
failed (`except` branches at lines 197-199 and 210-212). -/
def task_value : TaskOutcome → List Document
  | TaskOutcome.ok docs => docs
  | _ => []

/-- `_execute_parallel_search` lines 179-219.  Per-future exceptions are
caught (`results[source] = []`), and submit failures are recorded as `[]`
before collection.  But the collection loop iterates
`as_completed(future_to_source, timeout=self.timeout + 5)`, and that
iterator raises `TimeoutError` — outside the inner `try` — as soon as a
submitted task fails to finish within the deadline, abandoning every
result collected so far.  The Python dict's key insertion order depends
on completion order; it is canonicalized here to task order (the claims
only concern keys and per-key values). -/
def execute_parallel_search (tasks : List (String × TaskOutcome)) :
    Except String (List (String × List Document)) :=
  if tasks.any (fun t => t.2 = TaskOutcome.hang) then
    Except.error "TimeoutError"
  else
    Except.ok (tasks.map (fun t => (t.1, task_value t.2)))

/-- `search_all_parallel` lines 60-87: with no prepared tasks return `{}`
immediately, otherwise run the parallel collection. -/
def search_all_parallel (tasks : List (String × TaskOutcome)) :
    Except String (List (String × List Document)) :=
  if tasks.isEmpty then Except.ok []
  else execute_parallel_search tasks

end ParallelSearcher

namespace RAGSystem

/-- `config.py` line 51: `MAX_REWRITE_COUNT = 2` (the spec's `MAX_RETRIES`;
`rag_system.py` hard-codes the same literal `2` in the check node). -/
def MAX_REWRITE_COUNT : Nat := 2

/-- `rag_system.py` `_hallucination_check` lines 273-299: the node returns
the decision and the updated `rewrite_count`.  `evaluate` is the
evaluator call, thunked because the node short-circuits to `"relevant"`
without invoking it once `rewrite_count >= 2`; on a `"hallucination"`
decision the counter is incremented by exactly 1, otherwise it is
unchanged. -/
def hallucination_check (rewrite_count : Nat) (evaluate : Unit → String) :
    String × Nat :=
  if 2 ≤ rewrite_count then ("relevant", rewrite_count)
  else
    let decision := evaluate ()
    if decision = "hallucination" then ("hallucination", rewrite_count + 1)
    else (decision, rewrite_count)

/-- The integrate/verify loop wired by `_build_workflow` lines 160-179:
each entry is one `integrate_answers` node invocation followed by the
`hallucination_check` node; the conditional edge loops back to
`integrate_answers` exactly on decision `"hallucination"` and otherwise
proceeds to `format_output`.  `verdicts i` is the decision the evaluator
returns on its `i`-th invocation of the turn.  The result is the number
of Integrator invocations and the final `rewrite_count`. -/
def turn_loop (verdicts : Nat → String) (i rewrite_count : Nat) : Nat × Nat :=
  if 2 ≤ rewrite_count then (1, rewrite_count)
  else if verdicts i = "hallucination" then
    let r := turn_loop verdicts (i + 1) (rewrite_count + 1)
    (r.1 + 1, r.2)
  else (1, rewrite_count)
termination_by 2 - rewrite_count
decreasing_by omega

/-- One full turn: `parallel_search → integrate_answers →
hallucination_check → (loop | format_output)`, starting from
`rewrite_count = 0` and the first evaluator verdict. -/
def run_turn (verdicts : Nat → String) : Nat × Nat := turn_loop verdicts 0 0

end RAGSystem

namespace Config

/-- The attributes the `Config` class in `config.py` actually defines
(class attributes lines 13-189 and classmethods lines 191-272).
`update_system_prompt` / `prompt_manager.update_prompt` only ever
`setattr` names for which `hasattr` already holds, so this set is closed
under every write in the repository. -/
def attribute_names : List String :=
  ["MODEL_NAME", "TEMPERATURE", "EMBEDDING_CONFIG", "SEARCH_CONFIG",
   "SIMILARITY_THRESHOLD", "VECTORSTORE_CONFIG", "MAX_REWRITE_COUNT",
   "RECURSION_LIMIT", "MEDICAL_CONFIG", "MEDGEMMA_CONFIG", "S3_CONFIG",
   "SEARCH_SOURCES", "ROUTER_SYSTEM_PROMPT", "GRADER_SYSTEM_PROMPT",
   "RAG_SYSTEM_PROMPT", "HALLUCINATION_SYSTEM_PROMPT",
   "REWRITER_SYSTEM_PROMPT", "get_medical_categories", "get_embedding_model",
   "is_openai_embedding", "get_search_threshold", "validate_config",
   "update_system_prompt", "get_system_prompts"]

/-- Python attribute access `Config.<name>`: succeeds iff the attribute
exists, otherwise raises `AttributeError`. -/
def getattr (name : String) : Except String Unit :=
  if name ∈ attribute_names then Except.ok () else Except.error "AttributeError"

/-- `parallel_searcher.py` `__init__` lines 37-58: the `sources_enabled`
comprehension at line 48 evaluates `Config.SEARCH_SOURCES_CONFIG.get(...)`,
so construction aborts with `AttributeError` when that attribute is
missing, before the worker-pool settings are assigned. -/
def parallel_searcher_init : Except String Unit :=
  getattr "SEARCH_SOURCES_CONFIG"

/-- `integrator.py` `__init__` lines 13-17: line 15 evaluates
`Config.SOURCE_WEIGHTS.copy()`, so construction aborts with
`AttributeError` when that attribute is missing, before the integration
chain is set up. -/
def integrator_init : Except String Unit :=
  getattr "SOURCE_WEIGHTS"

end Config

/-! ### Spec-side (claim-side) definitions -/

/-- Modelled from the spec wording of §4.3 ("for each non-empty source …
order of sources in the context is insertion order of the map"): the
weighted-context parts as a filter/map over the map, to be compared with
the loop-built `build_weighted_content_parts`. -/
def weighted_content_spec (w : Weights) (m : SourceResultMap) : List String :=
  ((m.filter (fun p => !p.2.isEmpty)).map
    (fun p => Integrator.section_header w p.1
      :: p.2.enum.map (fun q => Integrator.item_line q.1 q.2))).flatten

/-- `source_type in categorized_docs and categorized_docs[source_type]`:
the candidate test of the fallback loop. -/
def candidate_hit (m : SourceResultMap) (s : String) : Bool :=
  match alookup m s with
  | some (_ :: _) => true
  | _ => false

/-- Modelled from the spec wording of §4.3's failure handling, restricted
to what the code implements: the fallback answer described as a choice
over the first hit of the fixed candidate list. -/
def fallback_spec (w : Weights) (m : SourceResultMap) : Except Unit String :=
  match Integrator.fallback_candidates.find? (candidate_hit m) with
  | none => Except.ok Integrator.fallback_apology
  | some s =>
    match alookup m s, alookup w s with
    | some (d :: _), some wt =>
      Except.ok (Integrator.fallback_template wt (pyTake 500 d.page_content) s)
    | some (_ :: _), none => Except.error ()
    | _, _ => Except.ok Integrator.fallback_apology

/-! ### Helper lemmas -/

/-- Appending-style `foldl` is the accumulator followed by the map. -/
theorem foldl_append_map {α β : Type} (f : α → β) :
    ∀ (l : List α) (acc : List β),
      l.foldl (fun a x => a ++ [f x]) acc = acc ++ l.map f
  | [], acc => by simp
  | x :: l, acc => by
    simp only [List.foldl_cons, List.map_cons]
    rw [foldl_append_map f l (acc ++ [f x])]
    simp

/-- The weighted-content loop equals the spec-side filter/map/join, for
every accumulator. -/
theorem build_parts_go_eq (w : Weights) :
    ∀ (m : SourceResultMap) (acc : List String),
      m.foldl
        (fun acc p =>
          if p.2.isEmpty then acc
          else
            p.2.enum.foldl (fun acc2 q => acc2 ++ [Integrator.item_line q.1 q.2])
              (acc ++ [Integrator.section_header w p.1]))
        acc
      = acc ++ weighted_content_spec w m
  | [], acc => by simp [weighted_content_spec]
  | p :: m, acc => by
    simp only [List.foldl_cons]
    by_cases hp : p.2.isEmpty
    · rw [if_pos hp, build_parts_go_eq w m acc]
      simp [weighted_content_spec, hp]
    · rw [if_neg hp, foldl_append_map, build_parts_go_eq w m]
      simp [weighted_content_spec, hp]

/-- `fallback_go` agrees with the find?-based description on every
candidate list. -/
theorem fallback_go_eq_spec (w : Weights) (m : SourceResultMap) :
    ∀ cands : List String,
      Integrator.fallback_go w m cands
        = match cands.find? (candidate_hit m) with
          | none => Except.ok Integrator.fallback_apology
          | some s =>
            match alookup m s, alookup w s with
            | some (d :: _), some wt =>
              Except.ok (Integrator.fallback_template wt (pyTake 500 d.page_content) s)
            | some (_ :: _), none => Except.error ()
            | _, _ => Except.ok Integrator.fallback_apology
  | [] => by simp [Integrator.fallback_go]
  | st :: rest => by
    by_cases h : candidate_hit m st
    · rw [List.find?_cons_of_pos _ h]
      unfold candidate_hit at h
      unfold Integrator.fallback_go
      rcases hm : alookup m st with _ | docs
      · rw [hm] at h; simp at h
      · rcases docs with _ | ⟨d, ds⟩
        · rw [hm] at h; simp at h
        · rcases hw : alookup w st with _ | wt <;> simp [hm, hw]
    · rw [List.find?_cons_of_neg _ h]
      unfold candidate_hit at h
      unfold Integrator.fallback_go
      rcases hm : alookup m st with _ | docs
      · exact fallback_go_eq_spec w m rest
      · rcases docs with _ | ⟨d, ds⟩
        · exact fallback_go_eq_spec w m rest
        · rw [hm] at h; simp at h

/-- No citation marker anywhere: the substitution scan is the identity,
at every fuel. -/
theorem enhanceScanFuel_of_no_marker :
    ∀ (fuel : Nat) (l : List Char), Integrator.hasMarker l = false →
      Integrator.enhanceScanFuel fuel l = l
  | _, [], _ => by cases ‹Nat› <;> rfl
  | 0, _ :: _, _ => rfl
  | fuel + 1, c :: rest, h => by
    unfold Integrator.hasMarker at h
    simp only [Bool.or_eq_false_iff] at h
    unfold Integrator.enhanceScanFuel
    rw [if_neg (by simp [h.1])]
    rw [enhanceScanFuel_of_no_marker fuel rest h.2]

/-- Some citation marker exists: the substituted text contains `'【'`,
for every sufficient fuel. -/
theorem enhanceScanFuel_contains_of_marker :
    ∀ (fuel : Nat) (l : List Char), l.length ≤ fuel →
      Integrator.hasMarker l = true →
      (Integrator.enhanceScanFuel fuel l).contains '【' = true
  | _, [], _, h => by simp [Integrator.hasMarker] at h
  | 0, c :: rest, hlen, _ => by simp at hlen
  | fuel + 1, c :: rest, hlen, h => by
    unfold Integrator.hasMarker at h
    unfold Integrator.enhanceScanFuel
    by_cases hc : (c = '[' && Integrator.marker_at rest) = true
    · rw [if_pos hc]
      simp [List.contains_cons]
    · rw [if_neg hc]
      simp only [hc, Bool.false_or] at h
      have h2 : (Integrator.enhanceScanFuel fuel rest).contains '【' = true :=
        enhanceScanFuel_contains_of_marker fuel rest
          (by simp at hlen; omega) h
      have hmem : '【' ∈ Integrator.enhanceScanFuel fuel rest := by
        simpa using h2
      simp [List.contains_cons, hmem]

/-! ### Claim theorems -/

/-- **C10**: constructing the core pipeline components fails
unconditionally: `ParallelSearcher.__init__` reads
`Config.SEARCH_SOURCES_CONFIG` and `Integrator.__init__` reads
`Config.SOURCE_WEIGHTS`, but the `Config` class defines neither
attribute, so both constructors raise `AttributeError` before any query
can be processed. -/
theorem C10_constructors_raise :
    Config.parallel_searcher_init = Except.error "AttributeError"
    ∧ Config.integrator_init = Except.error "AttributeError"
    ∧ "SEARCH_SOURCES_CONFIG" ∉ Config.attribute_names
    ∧ "SOURCE_WEIGHTS" ∉ Config.attribute_names := by
  refine ⟨by decide, by decide, by decide, by decide⟩

/-- **C6**: with an empty flattened evidence list, `check_hallucination`
returns `"relevant"` (Grounded) immediately without invoking the
classification model, regardless of the answer text. -/
theorem C6_vacuous_grounding
    (classify : List Document → String → String → Evaluator.ClassifierOutcome)
    (generation question : String) :
    Evaluator.check_hallucination classify [] generation question
      = ("relevant", false) := rfl

/-- **C7**: with non-empty evidence, an exception during the
classification-model call makes `check_hallucination` return
`"hallucination"` (NotGrounded, fail-unsafe), with the model having been
invoked. -/
theorem C7_fail_unsafe
    (classify : List Document → String → String → Evaluator.ClassifierOutcome)
    (documents : List Document) (generation question : String)
    (hne : documents ≠ [])
    (hraise : classify documents generation question
      = Evaluator.ClassifierOutcome.raise) :
    Evaluator.check_hallucination classify documents generation question
      = ("hallucination", true) := by
  unfold Evaluator.check_hallucination
  rw [if_neg (by simp [hne]), hraise]

/-- Witness for C7 at one non-empty document list and an always-raising
classifier. -/
theorem C7_fail_unsafe_witness :
    Evaluator.check_hallucination (fun _ _ _ => Evaluator.ClassifierOutcome.raise)
      [⟨"aspirin dosage is 500mg", [("source", "pubmed")]⟩] "gen" "q"
      = ("hallucination", true) :=
  C7_fail_unsafe _ _ _ _ (by decide) rfl

/-- Bound for the retry loop: from any `rewrite_count ≤ 2`, the number of
Integrator invocations plus the starting count is at most 3 and the final
count is at most 2. -/
theorem turn_loop_bound (v : Nat → String) (i rc : Nat) (h : rc ≤ 2) :
    (RAGSystem.turn_loop v i rc).1 + rc ≤ 3
    ∧ (RAGSystem.turn_loop v i rc).2 ≤ 2 := by
  by_cases h2 : 2 ≤ rc
  · rw [RAGSystem.turn_loop, if_pos h2]
    constructor <;> simp <;> omega
  · rw [RAGSystem.turn_loop, if_neg h2]
    by_cases hv : v i = "hallucination"
    · rw [if_pos hv]
      obtain ⟨ha, hb⟩ := turn_loop_bound v (i + 1) (rc + 1) (by omega)
      constructor
      · show (RAGSystem.turn_loop v (i + 1) (rc + 1)).1 + 1 + rc ≤ 3
        omega
      · exact hb
    · rw [if_neg hv]
      constructor <;> simp <;> omega
termination_by 2 - rc
decreasing_by omega

/-- **C1**: for every sequence of verdicts, the Integrator is invoked at
most `MAX_REWRITE_COUNT + 1 = 3` times per turn and the retry counter
never exceeds `MAX_REWRITE_COUNT = 2`; the check node increments the
counter by exactly 1 precisely on a `"hallucination"` (NotGrounded)
verdict below the cap and leaves it unchanged otherwise; once the counter
has reached the cap the node finalizes (decision `"relevant"`) without
consulting the verdict, so the turn keeps the last integrated answer; and
the loop is exactly the iteration of the check node along the
`"hallucination"` edge. -/
theorem C1_retry_bound (verdicts : Nat → String) :
    (RAGSystem.run_turn verdicts).1 ≤ RAGSystem.MAX_REWRITE_COUNT + 1
    ∧ (RAGSystem.run_turn verdicts).2 ≤ RAGSystem.MAX_REWRITE_COUNT
    ∧ (∀ (rc : Nat) (f : Unit → String),
        (RAGSystem.hallucination_check rc f).2
          = if rc < 2 ∧ f () = "hallucination" then rc + 1 else rc)
    ∧ (∀ i : Nat, RAGSystem.turn_loop verdicts i 2 = (1, 2))
    ∧ (∀ i rc : Nat, RAGSystem.turn_loop verdicts i rc =
        if (RAGSystem.hallucination_check rc (fun _ => verdicts i)).1
            = "hallucination" then
          ((RAGSystem.turn_loop verdicts (i + 1)
              (RAGSystem.hallucination_check rc (fun _ => verdicts i)).2).1 + 1,
           (RAGSystem.turn_loop verdicts (i + 1)
              (RAGSystem.hallucination_check rc (fun _ => verdicts i)).2).2)
        else (1, (RAGSystem.hallucination_check rc (fun _ => verdicts i)).2)) := by
  have hb := turn_loop_bound verdicts 0 0 (by omega)
  refine ⟨?_, ?_, ?_, ?_, ?_⟩
  · show (RAGSystem.turn_loop verdicts 0 0).1 ≤ 3
    omega
  · show (RAGSystem.turn_loop verdicts 0 0).2 ≤ 2
    omega
  · intro rc f
    by_cases h2 : 2 ≤ rc
    · rw [RAGSystem.hallucination_check, if_pos h2, if_neg (by omega)]
    · have hlt : rc < 2 := by omega
      by_cases hv : f () = "hallucination"
      · rw [RAGSystem.hallucination_check, if_neg h2]
        simp [hv, hlt]
      · rw [RAGSystem.hallucination_check, if_neg h2]
        simp [hv]
  · intro i
    rw [RAGSystem.turn_loop, if_pos (by omega)]
  · intro i rc
    by_cases h2 : 2 ≤ rc
    · rw [RAGSystem.turn_loop, if_pos h2, RAGSystem.hallucination_check,
        if_pos h2]
      simp
    · by_cases hv : verdicts i = "hallucination"
      · rw [RAGSystem.turn_loop, if_neg h2, if_pos hv,
          RAGSystem.hallucination_check, if_neg h2]
        simp [hv]
      · rw [RAGSystem.turn_loop, if_neg h2, if_neg hv,
          RAGSystem.hallucination_check, if_neg h2]
        simp [hv]

/-- **C2 counterexample**: a `SourceResultMap` with one source whose list
is empty (every value is `[]`, but the dict itself is non-empty) is *not*
short-circuited: `integrate_answers` invokes the generation model and
does not return the fixed no-information response — the Python guard is
`if not source_categorized_docs`, which only fires for an empty dict. -/
theorem C2_counterexample :
    (([("pubmed", [])] : SourceResultMap).all (fun p => p.2.isEmpty) = true)
    ∧ (Integrator.integrate_answers []
        (fun _ _ => Except.ok "Take aspirin.") "q"
        [("pubmed", [])]).model_invoked = true
    ∧ (Integrator.integrate_answers []
        (fun _ _ => Except.ok "Take aspirin.") "q"
        [("pubmed", [])]).result ≠ Except.ok Integrator.no_info_response := by
  refine ⟨by decide, by decide, by decide⟩

/-- **C2** (amended): `integrate_answers` skips the generation model iff
the source map itself is empty (has no keys), and in that case returns
the fixed no-information response; a non-empty map whose lists are all
empty still invokes the model. -/
theorem C2_short_circuit (w : Weights)
    (gen : String → String → Except Unit String) (question : String)
    (m : SourceResultMap) :
    ((Integrator.integrate_answers w gen question m).model_invoked = false
      ↔ m = [])
    ∧ Integrator.integrate_answers w gen question []
        = ⟨Except.ok Integrator.no_info_response, false⟩ := by
  refine ⟨?_, rfl⟩
  cases m with
  | nil => simp [Integrator.integrate_answers]
  | cons p l =>
    have hne : ((p :: l : SourceResultMap)).isEmpty = false := rfl
    unfold Integrator.integrate_answers
    rw [if_neg (by simp [hne])]
    cases hg : gen question (Integrator.build_weighted_content w (p :: l)) <;>
      simp [hg]

/-- **C8**: the weighted context contains exactly the non-empty sources in
the insertion order of the map (the filter/map/flatten description),
each section opened by a header carrying the source's display name and
its weight, where the weight defaults to `0.5` for identifiers absent
from the weight table, and each item line slices the document content to
at most 300 characters. -/
theorem C8_weighted_context (w : Weights) (m : SourceResultMap) :
    Integrator.build_weighted_content_parts w m = weighted_content_spec w m
    ∧ (∀ s : String, alookup w s = none → Integrator.weight_get w s = 1/2)
    ∧ (∀ s : String, strLen (pyTake 300 s) ≤ 300) := by
  refine ⟨?_, ?_, ?_⟩
  · unfold Integrator.build_weighted_content_parts
    have h := build_parts_go_eq w m []
    rwa [List.nil_append] at h
  · intro s hs
    simp [Integrator.weight_get, hs]
  · intro s
    simp only [strLen, pyTake, List.length_take]
    omega

/-- Witness for C8: a source identifier absent from the weight table gets
the default weight `0.5`. -/
theorem C8_weighted_context_witness :
    Integrator.weight_get [("pubmed", 1)] "custom_source" = 1/2 :=
  (C8_weighted_context [("pubmed", 1)] []).2.1 "custom_source" (by decide)

/-- **C9 counterexample**: an answer that already contains `'【'` but no
citation marker of the bracketed-tag grammar: no marker is found, yet the
advisory note is *not* appended (the code tests `'【' not in enhanced`,
not whether a marker was found), so "appends iff no marker found" fails. -/
theorem C9_counterexample :
    Integrator.hasMarker ("근거 【참고】 자료").data = false
    ∧ Integrator.enhance_citations "근거 【참고】 자료" = "근거 【참고】 자료"
    ∧ "근거 【참고】 자료" ≠ "근거 【참고】 자료" ++ Integrator.advisory := by
  refine ⟨by decide, by decide, by decide⟩

/-- **C9** (amended): every citation marker matching the bracketed
source-tag grammar is rewritten into the `【…】` form, and the advisory
note is appended iff the post-substitution text contains no `'【'`
character: if a marker was found the substitution introduces `'【'` and no
advisory is appended; if no marker was found the substitution is the
identity and the advisory is appended exactly when the original answer
did not already contain `'【'`. -/
theorem C9_citation_enhancement (s : String) :
    (Integrator.hasMarker s.data = true →
      strContainsChar (Integrator.re_sub_citations s) '【' = true
      ∧ Integrator.enhance_citations s = Integrator.re_sub_citations s)
    ∧ (Integrator.hasMarker s.data = false →
      Integrator.re_sub_citations s = s
      ∧ Integrator.enhance_citations s
          = (if strContainsChar s '【' then s else s ++ Integrator.advisory)) := by
  constructor
  · intro h
    have hc : strContainsChar (Integrator.re_sub_citations s) '【' = true :=
      enhanceScanFuel_contains_of_marker s.data.length s.data (Nat.le_refl _) h
    exact ⟨hc, by rw [Integrator.enhance_citations, if_pos hc]⟩
  · intro h
    have hid : Integrator.re_sub_citations s = s := by
      unfold Integrator.re_sub_citations Integrator.enhanceScan
      rw [enhanceScanFuel_of_no_marker s.data.length s.data h]
    refine ⟨hid, ?_⟩
    rw [Integrator.enhance_citations, hid]

/-- Witness for C9: an answer carrying one `[PubMed …]` marker ends up
with the `【…】` citation and without the advisory note. -/
theorem C9_citation_enhancement_witness :
    strContainsChar (Integrator.re_sub_citations "See [PubMed 2021] here.") '【'
      = true
    ∧ Integrator.enhance_citations "See [PubMed 2021] here."
        = Integrator.re_sub_citations "See [PubMed 2021] here." :=
  (C9_citation_enhancement "See [PubMed 2021] here.").1 (by decide)

/-- **C3 counterexample**: a dispatch with one prompt source and one
source whose task exceeds the collection deadline: `as_completed` raises
`TimeoutError` outside the per-future `try`, so the exception propagates
out of the dispatcher, aborting the dispatch and discarding the other
source's successful result — the failure is *not* recorded as an empty
list. -/
theorem C3_counterexample :
    ParallelSearcher.search_all_parallel
        [("pubmed", ParallelSearcher.TaskOutcome.ok
            [⟨"PubMed evidence", [("source", "pubmed")]⟩]),
         ("medgemma", ParallelSearcher.TaskOutcome.hang)]
      = Except.error "TimeoutError" := by decide

/-- **C3** (amended): an adapter that raises (at submit or during the
call) is isolated — its source is recorded as `[]` and the other sources
are unaffected; an exception in the generation model is caught by the
Integrator, which switches to the model-free fallback; an exception in
the classification model is caught by the Evaluator, which returns
`"hallucination"`; but an adapter task that fails to complete within the
collection deadline makes the dispatcher itself raise `TimeoutError`. -/
theorem C3_failure_isolation
    (tasks : List (String × ParallelSearcher.TaskOutcome)) :
    ((∀ t ∈ tasks, t.2 ≠ ParallelSearcher.TaskOutcome.hang) →
      ParallelSearcher.execute_parallel_search tasks
        = Except.ok (tasks.map (fun t => (t.1, ParallelSearcher.task_value t.2))))
    ∧ ((∃ t ∈ tasks, t.2 = ParallelSearcher.TaskOutcome.hang) →
      ParallelSearcher.execute_parallel_search tasks
        = Except.error "TimeoutError")
    ∧ (∀ (w : Weights) (gen : String → String → Except Unit String)
        (q : String) (m : SourceResultMap), m ≠ [] →
        gen q (Integrator.build_weighted_content w m) = Except.error () →
        Integrator.integrate_answers w gen q m
          = ⟨Integrator.fallback_integration w m, true⟩)
    ∧ (∀ (classify : List Document → String → String → Evaluator.ClassifierOutcome)
        (docs : List Document) (g q : String), docs ≠ [] →
        classify docs g q = Evaluator.ClassifierOutcome.raise →
        Evaluator.check_hallucination classify docs g q
          = ("hallucination", true)) := by
  refine ⟨?_, ?_, ?_, ?_⟩
  · intro h
    unfold ParallelSearcher.execute_parallel_search
    rw [if_neg]
    simp only [List.any_eq_true, not_exists, not_and]
    intro t ht
    simpa using h t ht
  · rintro ⟨t, ht, h2⟩
    unfold ParallelSearcher.execute_parallel_search
    rw [if_pos]
    simp only [List.any_eq_true]
    exact ⟨t, ht, by simp [h2]⟩
  · intro w gen q m hm hg
    unfold Integrator.integrate_answers
    rw [if_neg (by simp [hm]), hg]
  · intro classify docs g q hne hraise
    unfold Evaluator.check_hallucination
    rw [if_neg (by simp [hne]), hraise]

/-- Witness for C3: one raising adapter and one successful one — the
raising source degrades to `[]`, the other source's documents survive. -/
theorem C3_failure_isolation_witness :
    ParallelSearcher.execute_parallel_search
        [("pubmed", ParallelSearcher.TaskOutcome.raise),
         ("s3", ParallelSearcher.TaskOutcome.ok [⟨"s3 doc", []⟩])]
      = Except.ok [("pubmed", []), ("s3", [⟨"s3 doc", []⟩])] :=
  (C3_failure_isolation
    [("pubmed", ParallelSearcher.TaskOutcome.raise),
     ("s3", ParallelSearcher.TaskOutcome.ok [⟨"s3 doc", []⟩])]).1 (by decide)

/-- **C5 counterexample**: a dispatch whose single attempted task exceeds
the collection deadline returns no `SourceResultMap` at all — the
`as_completed` iterator raises `TimeoutError` — instead of a map with
that source mapped to `[]`. -/
theorem C5_counterexample :
    ParallelSearcher.search_all_parallel
        [("s3", ParallelSearcher.TaskOutcome.hang)]
      = Except.error "TimeoutError" := by decide

/-- **C5** (amended): when every attempted task completes or raises
(none exceeds the collection deadline), the returned map has exactly one
key per attempted source, in task order: the result list on success and
`[]` on a raise, submit failure or falsy result; a task that exceeds the
deadline instead makes the whole dispatch raise, returning no map. -/
theorem C5_map_completeness
    (tasks : List (String × ParallelSearcher.TaskOutcome))
    (h : ∀ t ∈ tasks, t.2 ≠ ParallelSearcher.TaskOutcome.hang) :
    ParallelSearcher.search_all_parallel tasks
      = Except.ok (tasks.map (fun t => (t.1, ParallelSearcher.task_value t.2)))
    ∧ (tasks.map (fun t => (t.1, ParallelSearcher.task_value t.2))).map
        (fun p => p.1) = tasks.map (fun t => t.1)
    ∧ (tasks.map (fun t => (t.1, ParallelSearcher.task_value t.2))).length
        = tasks.length
    ∧ ∀ (s : String) (o : ParallelSearcher.TaskOutcome), (s, o) ∈ tasks →
        (s, ParallelSearcher.task_value o)
          ∈ tasks.map (fun t => (t.1, ParallelSearcher.task_value t.2)) := by
  refine ⟨?_, by simp, by simp, ?_⟩
  · unfold ParallelSearcher.search_all_parallel
    by_cases he : tasks = []
    · subst he
      simp
    · rw [if_neg (by simp [he])]
      unfold ParallelSearcher.execute_parallel_search
      rw [if_neg]
      simp only [List.any_eq_true, not_exists, not_and]
      intro t ht
      simpa using h t ht
  · intro s o hmem
    exact List.mem_map_of_mem _ hmem

/-- Witness for C5: a submit failure plus a success — both keys present,
the failed one mapped to `[]`. -/
theorem C5_map_completeness_witness :
    ParallelSearcher.search_all_parallel
        [("s3", ParallelSearcher.TaskOutcome.submit_error),
         ("tavily", ParallelSearcher.TaskOutcome.ok [⟨"web doc", []⟩])]
      = Except.ok [("s3", []), ("tavily", [⟨"web doc", []⟩])] :=
  (C5_map_completeness
    [("s3", ParallelSearcher.TaskOutcome.submit_error),
     ("tavily", ParallelSearcher.TaskOutcome.ok [⟨"web doc", []⟩])]
    (by decide)).1

/-- **C4 counterexample**: the generation model raises and only `tavily`
(a source outside the hard-coded candidate list, though carrying the
highest weight among non-empty sources here) has documents: the
Integrator returns the fixed apology, not a templated answer built from
that source — and it returns the *same* fixed apology for a different
document content, so the fallback is not built from the source's content
at all. -/
theorem C4_counterexample :
    Integrator.integrate_answers
        [("pubmed", 1), ("medgemma", 9/10), ("rag", 4/5), ("tavily", 3/5)]
        (fun _ _ => Except.error ()) "q"
        [("tavily", [⟨"web content about aspirin", [("source", "http://e.com")]⟩])]
      = ⟨Except.ok Integrator.fallback_apology, true⟩
    ∧ Integrator.integrate_answers
        [("pubmed", 1), ("medgemma", 9/10), ("rag", 4/5), ("tavily", 3/5)]
        (fun _ _ => Except.error ()) "q"
        [("tavily", [⟨"entirely different text", []⟩])]
      = ⟨Except.ok Integrator.fallback_apology, true⟩ := by
  refine ⟨by decide, by decide⟩

/-- **C4** (amended): when the generation call raises on a non-empty map,
the Integrator returns the model-free fallback, which scans only the
fixed candidate list `["pubmed", "medgemma", "rag"]` (the descending
order of those sources' integration-prompt default weights): the first
candidate present with a non-empty list yields the template built from
its first item's content sliced to 500 characters, its configured
weight, and the consult-a-professional disclaimer; if no candidate is
present and non-empty the fixed apology is returned; and provided the
three candidate weights are configured, the fallback never raises (a
missing weight key for the chosen candidate would raise `KeyError`). -/
theorem C4_fallback (w : Weights) (gen : String → String → Except Unit String)
    (q : String) (m : SourceResultMap) (hm : m ≠ [])
    (hg : gen q (Integrator.build_weighted_content w m) = Except.error ()) :
    Integrator.integrate_answers w gen q m
      = ⟨Integrator.fallback_integration w m, true⟩
    ∧ Integrator.fallback_integration w m = fallback_spec w m
    ∧ ((alookup w "pubmed").isSome → (alookup w "medgemma").isSome →
        (alookup w "rag").isSome →
        ∃ a : String, Integrator.fallback_integration w m = Except.ok a) := by
  refine ⟨?_, ?_, ?_⟩
  · unfold Integrator.integrate_answers
    rw [if_neg (by simp [hm]), hg]
  · exact fallback_go_eq_spec w m Integrator.fallback_candidates
  · intro hp hmg hr
    unfold Integrator.fallback_integration
    rw [fallback_go_eq_spec w m Integrator.fallback_candidates]
    cases hf : Integrator.fallback_candidates.find? (candidate_hit m) with
    | none => exact ⟨_, rfl⟩
    | some s =>
      have hs : s ∈ Integrator.fallback_candidates := List.mem_of_find?_eq_some hf
      have hhit : candidate_hit m s = true := List.find?_some hf
      have hw : (alookup w s).isSome := by
        simp only [Integrator.fallback_candidates, List.mem_cons,
          List.mem_singleton, List.not_mem_nil, or_false] at hs
        rcases hs with rfl | rfl | rfl <;> assumption
      unfold candidate_hit at hhit
      rcases hmm : alookup m s with _ | docs
      · rw [hmm] at hhit
        simp at hhit
      · rcases docs with _ | ⟨d, ds⟩
        · rw [hmm] at hhit
          simp at hhit
        · rcases hwv : alookup w s with _ | wt
          · rw [hwv] at hw
            simp at hw
          · exact ⟨Integrator.fallback_template wt (pyTake 500 d.page_content) s,
              by simp [hmm, hwv]⟩

/-- Witness for C4: the generation model raises with `pubmed` documents
present — the fallback path is taken without a further model call. -/
theorem C4_fallback_witness :
    Integrator.integrate_answers [("pubmed", 1), ("medgemma", 9/10), ("rag", 4/5)]
        (fun _ _ => Except.error ()) "q"
        [("pubmed", [⟨"PubMed doc content", [("source", "pubmed")]⟩])]
      = ⟨Integrator.fallback_integration
          [("pubmed", 1), ("medgemma", 9/10), ("rag", 4/5)]
          [("pubmed", [⟨"PubMed doc content", [("source", "pubmed")]⟩])], true⟩ :=
  (C4_fallback [("pubmed", 1), ("medgemma", 9/10), ("rag", 4/5)]
    (fun _ _ => Except.error ()) "q"
    [("pubmed", [⟨"PubMed doc content", [("source", "pubmed")]⟩])]
    (by decide) rfl).1

end MedicalChatbot
